import Mathlib

/-!
Verification of the support-triage pipeline (triage_engine.py, guardian.py,
opportunity.py, response_generator.py, main.py, report_builder.py).

The external classifier and email services are opaque collaborators; each
stage is embedded as a function of the ticket data together with an explicit
outcome value describing what the service call did (returned such-and-such
text / parse result, raised, delivered with a status code).  Everything the
stages compute from those outcomes is translated directly from the Python
source.
-/

namespace Triage

/-! ## Python string primitives used by the response-cleaning code

`str.strip()`, `str.startswith`, and `str.split("\x60\x60\x60")[1]` are the
only string operations the analyzers apply to raw classifier responses.
They are modelled on `List Char`. -/

/-- The backtick character (U+0060), written via its code point. -/
def tick : Char := Char.ofNat 96

/-- One triple-backtick separator, as used by `split` in guardian.py:78 and
opportunity.py:70. -/
def ticks : List Char := [tick, tick, tick]

/-- ASCII whitespace stripped by Python `str.strip()`. -/
def isSpace (c : Char) : Bool :=
  c = ' ' || c = '\t' || c = '\n' || c = '\r' || c = '\x0b' || c = '\x0c'

/-- Left half of Python `str.strip()`. -/
def lstrip (s : List Char) : List Char := s.dropWhile isSpace

/-- Right half of Python `str.strip()`. -/
def rstrip (s : List Char) : List Char := (s.reverse.dropWhile isSpace).reverse

/-- Python `str.strip()`. -/
def pyStrip (s : List Char) : List Char := rstrip (lstrip s)

/-- Python `s.startswith(p)`. -/
def pyStartsWith (p s : List Char) : Bool := decide (s.take p.length = p)

/-- The four characters of the markdown fence tag `json`. -/
def jsonTag : List Char := ['j', 's', 'o', 'n']

/-- `true` iff the text contains a triple-backtick run, i.e. the separator of
`split` occurs in it.  Used only as a hypothesis of claim C4 ("j containing no
triple-backtick sequence"). -/
def hasTicks : List Char → Bool
  | [] => false
  | c :: rest => (decide (c = tick) && pyStartsWith [tick, tick] rest) || hasTicks rest

/-- Python `s.split("\x60\x60\x60")`: cut at each non-overlapping
triple-backtick occurrence, scanning left to right.  Lists of length at most
two cannot contain the separator and form a single piece. -/
def pySplitTicks : List Char → List (List Char)
  | a :: b :: c :: rest =>
    if a = tick ∧ b = tick ∧ c = tick then
      [] :: pySplitTicks rest
    else
      match pySplitTicks (b :: c :: rest) with
      | [] => [[a]]
      | g :: gs => (a :: g) :: gs
  | s => [s]

/-- The response-cleaning step shared by guardian.py:74-81 and
opportunity.py:66-73:

  result_text = response.content[0].text.strip()
  if result_text.startswith("\x60\x60\x60"):
      result_text = result_text.split("\x60\x60\x60")[1]
      if result_text.startswith("json"):
          result_text = result_text[4:]
  result_text = result_text.strip()

(`[1]` on the split exists whenever the text starts with the separator, and
is modelled with `getD 1`.)  `stripFence` is the fence-removal conditional;
`cleanResponse` is the full strip-unfence-strip sequence. -/
def stripFence (t : List Char) : List Char :=
  if pyStartsWith ticks t then
    let u := (pySplitTicks t).getD 1 []
    if pyStartsWith jsonTag u then u.drop 4 else u
  else t

def cleanResponse (raw : List Char) : List Char :=
  pyStrip (stripFence (pyStrip raw))

/-- A JSON text wrapped in a markdown code fence carrying the `json` tag. -/
def fenceTagged (j : List Char) : List Char :=
  ticks ++ ('j' :: 's' :: 'o' :: 'n' :: '\n' :: (j ++ '\n' :: ticks))

/-- A JSON text wrapped in a bare markdown code fence. -/
def fencePlain (j : List Char) : List Char :=
  ticks ++ ('\n' :: (j ++ '\n' :: ticks))

/-! ### Lemmas about the string primitives -/

lemma hasTicks_tail {c : Char} {l : List Char} (h : hasTicks (c :: l) = false) :
    hasTicks l = false := by
  simp only [hasTicks, Bool.or_eq_false_iff] at h
  exact h.2

lemma hasTicks_append_of (z : List Char) :
    ∀ {x : List Char}, hasTicks x = true → hasTicks (x ++ z) = true := by
  intro x hx
  induction x with
  | nil => simp [hasTicks] at hx
  | cons a x ih =>
    simp only [hasTicks, Bool.or_eq_true, Bool.and_eq_true, decide_eq_true_eq] at hx ⊢
    rcases hx with ⟨rfl, hp⟩ | hx
    · left
      refine ⟨rfl, ?_⟩
      simp only [pyStartsWith, decide_eq_true_eq] at hp ⊢
      match x, hp with
      | b :: d :: x', hp => simpa using hp
    · right
      exact ih hx

lemma hasTicks_append_left {x z : List Char} (h : hasTicks (x ++ z) = false) :
    hasTicks x = false := by
  by_contra hx
  rw [Bool.not_eq_false] at hx
  rw [hasTicks_append_of z hx] at h
  exact Bool.noConfusion h

lemma lstrip_cons_space {c : Char} {x : List Char} (h : isSpace c = true) :
    lstrip (c :: x) = lstrip x :=
  List.dropWhile_cons_of_pos h

lemma lstrip_cons_keep {c : Char} {x : List Char} (h : isSpace c = false) :
    lstrip (c :: x) = c :: x :=
  List.dropWhile_cons_of_neg (by simp [h])

lemma lstrip_append_of_empty {y : List Char} (z : List Char) (h : lstrip y = []) :
    lstrip (y ++ z) = lstrip z := by
  unfold lstrip at *
  rw [List.dropWhile_append, h]
  rfl

lemma lstrip_append_of_ne {y : List Char} (z : List Char) (h : lstrip y ≠ []) :
    lstrip (y ++ z) = lstrip y ++ z := by
  unfold lstrip at *
  rw [List.dropWhile_append]
  split
  · next hemp =>
    exact absurd (by simpa using hemp) h
  · rfl

lemma rstrip_rev_head {z : List Char} {c : Char} {w : List Char}
    (hz : z.reverse = c :: w) (h : isSpace c = false) : rstrip z = z := by
  unfold rstrip
  rw [hz, List.dropWhile_cons_of_neg (by simp [h]), ← hz, List.reverse_reverse]

lemma rstrip_append_space {y : List Char} {c : Char} (h : isSpace c = true) :
    rstrip (y ++ [c]) = rstrip y := by
  unfold rstrip
  rw [List.reverse_append]
  simp [List.dropWhile_cons_of_pos h]

lemma pyStrip_cons_space {c : Char} {y : List Char} (h : isSpace c = true) :
    pyStrip (c :: y) = pyStrip y := by
  unfold pyStrip
  rw [lstrip_cons_space h]

lemma pyStrip_append_space {y : List Char} {c : Char} (h : isSpace c = true) :
    pyStrip (y ++ [c]) = pyStrip y := by
  unfold pyStrip
  by_cases he : lstrip y = []
  · rw [lstrip_append_of_empty _ he, he]
    have : lstrip [c] = [] := by simp [lstrip, List.dropWhile_cons, h]
    rw [this]
  · rw [lstrip_append_of_ne _ he, rstrip_append_space h]

lemma lstrip_idem (s : List Char) : lstrip (lstrip s) = lstrip s := by
  unfold lstrip
  cases h : s.dropWhile isSpace with
  | nil => simp
  | cons c w =>
    have hn := List.head?_dropWhile_not isSpace s
    rw [h] at hn
    simp only [List.head?_cons] at hn
    exact List.dropWhile_cons_of_neg (by simp [hn])

lemma rstrip_idem (s : List Char) : rstrip (rstrip s) = rstrip s := by
  unfold rstrip
  rw [List.reverse_reverse]
  have := lstrip_idem s.reverse
  unfold lstrip at this
  rw [this]

lemma rstrip_append_eq (s : List Char) :
    rstrip s ++ (s.reverse.takeWhile isSpace).reverse = s := by
  unfold rstrip
  rw [← List.reverse_append, List.takeWhile_append_dropWhile, List.reverse_reverse]

lemma hasTicks_lstrip {y : List Char} (h : hasTicks y = false) :
    hasTicks (lstrip y) = false := by
  induction y with
  | nil => simpa [lstrip] using h
  | cons c y ih =>
    by_cases hc : isSpace c = true
    · rw [lstrip_cons_space hc]
      exact ih (hasTicks_tail h)
    · rw [lstrip_cons_keep (by simpa using hc)]
      exact h

lemma hasTicks_rstrip {y : List Char} (h : hasTicks y = false) :
    hasTicks (rstrip y) = false := by
  have := rstrip_append_eq y
  rw [← this] at h
  exact hasTicks_append_left h

lemma hasTicks_pyStrip {y : List Char} (h : hasTicks y = false) :
    hasTicks (pyStrip y) = false :=
  hasTicks_rstrip (hasTicks_lstrip h)

lemma notStartTicks {s : List Char} (h : hasTicks s = false) :
    pyStartsWith ticks s = false := by
  by_contra hp
  rw [Bool.not_eq_false] at hp
  simp only [pyStartsWith, ticks, decide_eq_true_eq] at hp
  match s, hp with
  | a :: b :: c :: s', hp =>
    simp only [List.take, List.cons.injEq] at hp
    obtain ⟨rfl, rfl, rfl, -⟩ := hp
    simp [hasTicks, pyStartsWith, List.take] at h

lemma pyStrip_idem (s : List Char) : pyStrip (pyStrip s) = pyStrip s := by
  unfold pyStrip
  have hlu : lstrip (lstrip s) = lstrip s := lstrip_idem s
  have hfix : lstrip (rstrip (lstrip s)) = rstrip (lstrip s) := by
    cases hr : rstrip (lstrip s) with
    | nil => simp [lstrip]
    | cons c w =>
      have hw := rstrip_append_eq (lstrip s)
      rw [hr] at hw
      by_cases hc : isSpace c = true
      · exfalso
        rw [← hw, List.cons_append, lstrip_cons_space hc] at hlu
        have hle : (lstrip (w ++ (((lstrip s).reverse.takeWhile isSpace).reverse))).length
            ≤ (w ++ (((lstrip s).reverse.takeWhile isSpace).reverse)).length :=
          (List.dropWhile_sublist isSpace).length_le
        rw [hlu] at hle
        simp at hle
      · exact lstrip_cons_keep (by simpa using hc)
  rw [hfix, rstrip_idem]

/-! ### Behaviour of `pySplitTicks` on fenced text -/

lemma pySplitTicks_end {c : Char} (hc : c ≠ tick) :
    ∀ {m : List Char}, hasTicks m = false →
      pySplitTicks (m ++ c :: ticks) = [m ++ [c], []] := by
  intro m
  induction m with
  | nil =>
    intro _
    simp [pySplitTicks, ticks, hc]
  | cons a m ih =>
    intro h
    match m with
    | [] => simp [pySplitTicks, ticks, hc]
    | [b] =>
      have hb : pySplitTicks ([b] ++ c :: ticks) = [[b] ++ [c], []] := ih (hasTicks_tail h)
      simp only [List.cons_append, List.nil_append] at hb ⊢
      rw [pySplitTicks, hb]
      have hcond : ¬(a = tick ∧ b = tick ∧ c = tick) := fun hx => hc hx.2.2
      rw [if_neg hcond]
    | b :: d :: m' =>
      have hm : hasTicks (b :: d :: m') = false := hasTicks_tail h
      have hb := ih hm
      simp only [List.cons_append] at hb ⊢
      rw [pySplitTicks, hb]
      have hcond : ¬(a = tick ∧ b = tick ∧ d = tick) := by
        rintro ⟨rfl, rfl, rfl⟩
        simp [hasTicks, pyStartsWith, List.take] at h
      rw [if_neg hcond]

lemma pySplitTicks_fence {m : List Char} (h : hasTicks m = false) {c : Char} (hc : c ≠ tick) :
    pySplitTicks (ticks ++ (m ++ c :: ticks)) = [[], m ++ [c], []] := by
  have hrest := pySplitTicks_end hc h
  simp only [ticks, List.cons_append, List.nil_append]
  rw [pySplitTicks, if_pos ⟨rfl, rfl, rfl⟩]
  simp only [ticks] at hrest
  rw [hrest]

lemma pyStrip_fence_fix (x : List Char) :
    pyStrip (ticks ++ x ++ ticks) = ticks ++ x ++ ticks := by
  unfold pyStrip
  have h1 : lstrip (ticks ++ x ++ ticks) = ticks ++ x ++ ticks := by
    simp only [ticks, List.cons_append, List.nil_append]
    exact lstrip_cons_keep (by decide)
  rw [h1]
  refine rstrip_rev_head (c := tick)
    (w := tick :: tick :: (x.reverse ++ [tick, tick, tick])) ?_ (by decide)
  simp [ticks]

/-! ### The cleaning step on fenced and unfenced responses -/

lemma hasTicks_cons_ne {c : Char} (rest : List Char) (hc : c ≠ tick) :
    hasTicks (c :: rest) = hasTicks rest := by
  simp [hasTicks, hc]

lemma hasTicks_jsonNl {j : List Char} (h : hasTicks j = false) :
    hasTicks ('j' :: 's' :: 'o' :: 'n' :: '\n' :: j) = false := by
  rw [hasTicks_cons_ne _ (by decide), hasTicks_cons_ne _ (by decide),
    hasTicks_cons_ne _ (by decide), hasTicks_cons_ne _ (by decide),
    hasTicks_cons_ne _ (by decide)]
  exact h

lemma pyStrip_fenceTagged (j : List Char) :
    pyStrip (fenceTagged j) = fenceTagged j := by
  have hshape : fenceTagged j =
      ticks ++ (('j' :: 's' :: 'o' :: 'n' :: '\n' :: j) ++ ['\n']) ++ ticks := by
    simp [fenceTagged, ticks]
  rw [hshape, pyStrip_fence_fix]

lemma pyStrip_fencePlain (j : List Char) :
    pyStrip (fencePlain j) = fencePlain j := by
  have hshape : fencePlain j = ticks ++ (('\n' :: j) ++ ['\n']) ++ ticks := by
    simp [fencePlain, ticks]
  rw [hshape, pyStrip_fence_fix]

lemma stripFence_fenceTagged {j : List Char} (h : hasTicks j = false) :
    stripFence (fenceTagged j) = '\n' :: (j ++ ['\n']) := by
  unfold stripFence
  have hstart : pyStartsWith ticks (fenceTagged j) = true := by
    simp [pyStartsWith, ticks, fenceTagged, List.take]
  rw [if_pos hstart]
  have hsplit : pySplitTicks (fenceTagged j) =
      [[], ('j' :: 's' :: 'o' :: 'n' :: '\n' :: j) ++ ['\n'], []] := by
    have hshape : fenceTagged j =
        ticks ++ (('j' :: 's' :: 'o' :: 'n' :: '\n' :: j) ++ '\n' :: ticks) := by
      simp [fenceTagged]
    rw [hshape, pySplitTicks_fence (hasTicks_jsonNl h) (by decide)]
  rw [hsplit]
  have hget : ([[], ('j' :: 's' :: 'o' :: 'n' :: '\n' :: j) ++ ['\n'], []]).getD 1 ([] : List Char)
      = ('j' :: 's' :: 'o' :: 'n' :: '\n' :: j) ++ ['\n'] := rfl
  rw [hget]
  have hjson : pyStartsWith jsonTag (('j' :: 's' :: 'o' :: 'n' :: '\n' :: j) ++ ['\n']) = true := by
    simp [pyStartsWith, jsonTag, List.take]
  rw [if_pos hjson]
  simp [List.drop]

lemma stripFence_fencePlain {j : List Char} (h : hasTicks j = false) :
    stripFence (fencePlain j) = '\n' :: (j ++ ['\n']) := by
  unfold stripFence
  have hstart : pyStartsWith ticks (fencePlain j) = true := by
    simp [pyStartsWith, ticks, fencePlain, List.take]
  rw [if_pos hstart]
  have hsplit : pySplitTicks (fencePlain j) = [[], ('\n' :: j) ++ ['\n'], []] := by
    have hshape : fencePlain j = ticks ++ (('\n' :: j) ++ '\n' :: ticks) := by
      simp [fencePlain]
    rw [hshape, pySplitTicks_fence (by rwa [hasTicks_cons_ne _ (by decide)]) (by decide)]
  rw [hsplit]
  have hget : ([[], ('\n' :: j) ++ ['\n'], []]).getD 1 ([] : List Char)
      = ('\n' :: j) ++ ['\n'] := rfl
  rw [hget]
  have hjson : pyStartsWith jsonTag ('\n' :: (j ++ ['\n'])) = false := by
    simp [pyStartsWith, jsonTag, List.take]
  rw [if_neg (by simp [hjson])]
  simp

lemma cleanResponse_fenceTagged {j : List Char} (h : hasTicks j = false) :
    cleanResponse (fenceTagged j) = pyStrip j := by
  unfold cleanResponse
  rw [pyStrip_fenceTagged, stripFence_fenceTagged h,
    pyStrip_cons_space (by decide), pyStrip_append_space (by decide)]

lemma cleanResponse_fencePlain {j : List Char} (h : hasTicks j = false) :
    cleanResponse (fencePlain j) = pyStrip j := by
  unfold cleanResponse
  rw [pyStrip_fencePlain, stripFence_fencePlain h,
    pyStrip_cons_space (by decide), pyStrip_append_space (by decide)]

lemma cleanResponse_unfenced {j : List Char} (h : hasTicks j = false) :
    cleanResponse j = pyStrip j := by
  unfold cleanResponse stripFence
  have hns : pyStartsWith ticks (pyStrip j) = false := notStartTicks (hasTicks_pyStrip h)
  rw [if_neg (by simp [hns])]
  exact pyStrip_idem j

/-! ## JSON values and Python comparison semantics

The analyzers read fields out of the dict produced by `json.loads` and
compare them against integer thresholds with `>=`.  A field can hold any
JSON value; Python compares numbers and booleans (`True` is 1, `False` is 0)
and raises `TypeError` for strings, `None`, lists and dicts.  JSON numbers
are idealized as rationals. -/

inductive JVal where
  | num (q : ℚ)
  | boolean (b : Bool)
  | str (s : String)
  | null
  | aggregate
deriving DecidableEq

/-- Python `x >= n` for an integer literal `n`: numeric for numbers and
booleans, `TypeError` (modelled as `.error ()`) otherwise. -/
def pyGEInt (x : JVal) (n : ℤ) : Except Unit Bool :=
  match x with
  | .num q => .ok (decide ((n : ℚ) ≤ q))
  | .boolean b => .ok (decide ((n : ℚ) ≤ if b then 1 else 0))
  | _ => .error ()

/-- Errors that a Python expression in the embedded fragments can raise. -/
inductive PyErr where
  | keyError
  | attrError
deriving DecidableEq

/-- Outcome of `json.loads` on the cleaned response text: a JSON object with
the fields the stage reads (absent key = `none`), some other JSON value
(on which the subsequent `.get` raises `AttributeError`), or a
`JSONDecodeError` carrying its message. -/
inductive Parsed (Obj : Type) where
  | obj (o : Obj)
  | nonObject
  | parseError (msg : String)

/-- Outcome of one classifier service call whose response is parsed as JSON. -/
inductive JsonCall (Obj : Type) where
  | raised
  | returned (p : Parsed Obj)

/-! ## Guardian (guardian.py) -/

/-- The fields of the Guardian JSON object that `analyze_churn_risk` reads or
copies into its result (guardian.py asks the model for exactly these five). -/
structure GObj where
  risk_score : Option JVal
  is_high_risk : Option JVal
  sentiment : Option JVal
  evidence : Option JVal
  reasoning : Option JVal

/-- The dict returned by `analyze_churn_risk`: the parsed fields with
`is_high_risk` overwritten by a genuine boolean (guardian.py:99), or one of
the two fallback dicts in which every field is populated. -/
structure GuardianResult where
  risk_score : Option JVal
  is_high_risk : Bool
  sentiment : Option JVal
  evidence : Option JVal
  reasoning : Option JVal
deriving DecidableEq

/-- guardian.py:90-96 — the parse-failure fallback. -/
def guardianParseFallback (msg : String) : GuardianResult :=
  { risk_score := some (.num 5), is_high_risk := false,
    sentiment := some (.str "neutral"), evidence := some (.str ""),
    reasoning := some (.str ("JSON parse error: " ++ msg)) }

/-- guardian.py:106-112 — the outer-exception fallback. -/
def guardianExcFallback : GuardianResult :=
  { risk_score := some (.num 0), is_high_risk := false,
    sentiment := some (.str "neutral"), evidence := some (.str ""),
    reasoning := some (.str "Analysis failed") }

/-- `analyze_churn_risk` (guardian.py:19-112) as a function of the service
call's outcome.  A `TypeError` raised by `result.get('risk_score', 0) >= 7`
and the `AttributeError` raised by `.get` on a non-dict JSON value are both
caught by the outer `except Exception`, yielding the exception fallback. -/
def analyze_churn_risk (call : JsonCall GObj) : GuardianResult :=
  match call with
  | .raised => guardianExcFallback
  | .returned (.parseError msg) => guardianParseFallback msg
  | .returned .nonObject => guardianExcFallback
  | .returned (.obj o) =>
    match pyGEInt (o.risk_score.getD (.num 0)) 7 with
    | .error _ => guardianExcFallback
    | .ok b =>
      { risk_score := o.risk_score, is_high_risk := b,
        sentiment := o.sentiment, evidence := o.evidence,
        reasoning := o.reasoning }

/-! ## Opportunity (opportunity.py) -/

/-- The fields of the Opportunity JSON object read or copied by
`detect_business_intent`. -/
structure OObj where
  has_business_intent : Option JVal
  intent_type : Option JVal
  confidence : Option JVal
  evidence : Option JVal
  reasoning : Option JVal

/-- The dict returned by `detect_business_intent` with `has_business_intent`
overwritten by a genuine boolean (opportunity.py:91). -/
structure OpportunityResult where
  has_business_intent : Bool
  intent_type : Option JVal
  confidence : Option JVal
  evidence : Option JVal
  reasoning : Option JVal
deriving DecidableEq

/-- opportunity.py:82-88 — the parse-failure fallback (`intent_type` is
present and holds `None`). -/
def opportunityParseFallback (msg : String) : OpportunityResult :=
  { has_business_intent := false, intent_type := some .null,
    confidence := some (.num 0), evidence := some (.str ""),
    reasoning := some (.str ("JSON parse error: " ++ msg)) }

/-- opportunity.py:98-104 — the outer-exception fallback. -/
def opportunityExcFallback : OpportunityResult :=
  { has_business_intent := false, intent_type := some .null,
    confidence := some (.num 0), evidence := some (.str ""),
    reasoning := some (.str "Analysis failed") }

/-- `detect_business_intent` (opportunity.py:19-104) as a function of the
service call's outcome. -/
def detect_business_intent (call : JsonCall OObj) : OpportunityResult :=
  match call with
  | .raised => opportunityExcFallback
  | .returned (.parseError msg) => opportunityParseFallback msg
  | .returned .nonObject => opportunityExcFallback
  | .returned (.obj o) =>
    match pyGEInt (o.confidence.getD (.num 0)) 6 with
    | .error _ => opportunityExcFallback
    | .ok b =>
      { has_business_intent := b, intent_type := o.intent_type,
        confidence := o.confidence, evidence := o.evidence,
        reasoning := o.reasoning }

/-! ## Raw-text entry points

guardian.py and opportunity.py feed `json.loads` with the cleaned response
text.  `json.loads` is a fixed deterministic function of that text; both
analyzers are its composition with the post-parse logic above, so they are
parameterized by an arbitrary `loads` function. -/

def analyze_churn_risk_text (loads : List Char → Parsed GObj) (raw : List Char) :
    GuardianResult :=
  analyze_churn_risk (.returned (loads (cleanResponse raw)))

def detect_business_intent_text (loads : List Char → Parsed OObj) (raw : List Char) :
    OpportunityResult :=
  detect_business_intent (.returned (loads (cleanResponse raw)))

/-! ## Triage engine (triage_engine.py) -/

/-- One input ticket row (columns of tickets_input.csv, per main.py:53-61;
`actual_priority` is the optional column read by `ticket.get` in
triage_engine.py:87). -/
structure Ticket where
  ticket_id : String
  customer_name : String
  subject : String
  description : String
  channel : String
  mrr : ℤ
  timestamp : String
  actual_priority : Option String
deriving DecidableEq

/-- One configured agent/team (data/agents.json entries as read by
`route_to_agent`). -/
structure Agent where
  name : String
  description : String
  specialties : List String
deriving DecidableEq

/-- Outcome of a classifier service call whose response is used as plain
text: it returned the given text, or it raised. -/
inductive SvcCall where
  | raised
  | returned (text : String)
deriving DecidableEq

/-- Python `str.strip()` on `String`. -/
def pyStripS (s : String) : String := String.mk (pyStrip s.data)

def validPriorities : List String := ["P0", "P1", "P2", "P3"]

/-- `classify_priority` (triage_engine.py:16-87): strip the returned token
and validate it against the four levels, defaulting to P2; on exception,
return `ticket.get('actual_priority', 'P2')` verbatim. -/
def classify_priority (ticket : Ticket) (call : SvcCall) : String :=
  match call with
  | .returned text =>
    let priority := pyStripS text
    if priority ∈ validPriorities then priority else "P2"
  | .raised => ticket.actual_priority.getD "P2"

/-- `route_to_agent` (triage_engine.py:90-134): strip the returned name and
validate it against the configured team names, defaulting to the hardcoded
string; on exception, return the same hardcoded string. -/
def route_to_agent (ticket : Ticket) (agents : List Agent) (call : SvcCall) : String :=
  match call with
  | .returned text =>
    let agent_name := pyStripS text
    let valid_agents := agents.map (fun a => a.name)
    if agent_name ∈ valid_agents then agent_name else "Integrations & API Team"
  | .raised => "Integrations & API Team"

/-- `generate_draft_response` (response_generator.py:41-92): the stripped
completion text, or `None` when the service call raised. -/
def generate_draft_response (ticket : Ticket) (assigned_agent : String)
    (call : SvcCall) : Option String :=
  match call with
  | .returned text => some (pyStripS text)
  | .raised => none

/-! ## Alert dispatch (guardian.py:115-211, opportunity.py:106-220)

Both senders first check the recipient environment variable, then build the
subject and HTML body with f-strings — dict subscripts in those f-strings
raise `KeyError` for a missing key, and `.title()` on a non-string raises
`AttributeError`, all before the `try` that guards the actual send — and
finally send, converting the delivery status or exception to a boolean. -/

/-- Outcome of `sendgrid_client.send`: an HTTP status code, or a raise. -/
inductive SendOutcome where
  | raised
  | status (code : ℤ)
deriving DecidableEq

/-- `send_guardian_alert`: the f-string body reads
`guardian_result['risk_score']`, `guardian_result['sentiment'].title()`,
`guardian_result['evidence']`, `guardian_result['reasoning']` (lines
155-166), so those keys must exist and `sentiment` must be a string. -/
def send_guardian_alert (kam_email : Option String) (ticket : Ticket)
    (g : GuardianResult) (send : SendOutcome) : Except PyErr Bool :=
  match kam_email with
  | none => .ok false
  | some _ =>
    match g.risk_score with
    | none => .error .keyError
    | some _ =>
      match g.sentiment with
      | none => .error .keyError
      | some (.str _) =>
        match g.evidence with
        | none => .error .keyError
        | some _ =>
          match g.reasoning with
          | none => .error .keyError
          | some _ =>
            match send with
            | .raised => .ok false
            | .status code => .ok (decide (code = 200 ∨ code = 202))
      | some _ => .error .attrError

/-- `send_opportunity_alert`: the f-string body reads
`opportunity_result['confidence']`, `['evidence']`, `['reasoning']`
(lines 162-180; `intent_type` goes through `.get` and cannot raise). -/
def send_opportunity_alert (sales_email : Option String) (ticket : Ticket)
    (o : OpportunityResult) (send : SendOutcome) : Except PyErr Bool :=
  match sales_email with
  | none => .ok false
  | some _ =>
    match o.confidence, o.evidence, o.reasoning with
    | some _, some _, some _ =>
      match send with
      | .raised => .ok false
      | .status code => .ok (decide (code = 200 ∨ code = 202))
    | _, _, _ => .error .keyError

/-! ## Orchestrator (main.py) -/

/-- The outcomes of every external interaction one ticket can trigger. -/
structure TicketOutcomes where
  priorityCall : SvcCall
  routeCall : SvcCall
  guardianCall : JsonCall GObj
  opportunityCall : JsonCall OObj
  draftCall : SvcCall
  guardianSend : SendOutcome
  opportunitySend : SendOutcome

/-- Recipient configuration (GUARDIAN_EMAIL / OPPORTUNITY_EMAIL). -/
structure Env where
  guardian_email : Option String
  opportunity_email : Option String

/-- The enriched result dict built by `process_ticket` (main.py:47-104).
`draft_response = none` means the key is absent (P0/P1 tickets never get
one); `some none` means the key holds `None` (draft generation failed).
The `email_sent` keys are set only when the respective alert was attempted. -/
structure TriageResult where
  ticket_id : String
  customer_name : String
  subject : String
  description : String
  channel : String
  mrr : ℤ
  timestamp : String
  assigned_priority : String
  assigned_agent : String
  guardian : GuardianResult
  guardian_email_sent : Option Bool
  opportunity : OpportunityResult
  opportunity_email_sent : Option Bool
  draft_response : Option (Option String)

/-- `process_ticket` (main.py:47-104).  The alert senders can raise
(see `send_guardian_alert`), and main.py does not catch that, so the
function is `Except`-valued; every other stage is total. -/
def process_ticket (ticket : Ticket) (agents : List Agent) (oc : TicketOutcomes)
    (env : Env) : Except PyErr TriageResult :=
  let priority := classify_priority ticket oc.priorityCall
  let assigned_agent := route_to_agent ticket agents oc.routeCall
  let guardian_result := analyze_churn_risk oc.guardianCall
  let g_step : Except PyErr (Option Bool) :=
    if guardian_result.is_high_risk then
      (send_guardian_alert env.guardian_email ticket guardian_result oc.guardianSend).map some
    else .ok none
  match g_step with
  | .error e => .error e
  | .ok g_sent =>
    let opportunity_result := detect_business_intent oc.opportunityCall
    let o_step : Except PyErr (Option Bool) :=
      if opportunity_result.has_business_intent then
        (send_opportunity_alert env.opportunity_email ticket opportunity_result
          oc.opportunitySend).map some
      else .ok none
    match o_step with
    | .error e => .error e
    | .ok o_sent =>
      let draft : Option (Option String) :=
        if priority = "P2" ∨ priority = "P3" then
          some (generate_draft_response ticket assigned_agent oc.draftCall)
        else none
      .ok { ticket_id := ticket.ticket_id, customer_name := ticket.customer_name,
            subject := ticket.subject, description := ticket.description,
            channel := ticket.channel, mrr := ticket.mrr,
            timestamp := ticket.timestamp,
            assigned_priority := priority, assigned_agent := assigned_agent,
            guardian := guardian_result, guardian_email_sent := g_sent,
            opportunity := opportunity_result, opportunity_email_sent := o_sent,
            draft_response := draft }

/-! ## Metrics and dashboard percentages (main.py:152-165, report_builder.py:14-106) -/

/-- Python's `/` on ints: float division, `ZeroDivisionError` when the
denominator is 0 (floats idealized as rationals; only definedness and the
exact ratio matter to the claims). -/
def pyDiv (a b : ℚ) : Except Unit ℚ :=
  if b = 0 then .error () else .ok (a / b)

/-- `r.get('draft_response') is not None` (main.py:157). -/
def draftIsNotNone (r : TriageResult) : Bool :=
  match r.draft_response with
  | some (some _) => true
  | _ => false

/-- Truthiness of `r.get('draft_response')` (report_builder.py:24): an empty
draft string is falsy. -/
def draftTruthy (r : TriageResult) : Bool :=
  match r.draft_response with
  | some (some s) => !(s = "")
  | _ => false

structure Metrics where
  total_tickets : ℕ
  guardian_alerts : ℕ
  opportunity_alerts : ℕ
  auto_resolved : ℕ
  auto_resolved_rate : ℚ
deriving DecidableEq

/-- `generate_metrics` (main.py:152-165); `auto_resolved_rate` is
`auto_resolved/total*100` before string formatting. -/
def generate_metrics (results : List TriageResult) : Except Unit Metrics :=
  let total := results.length
  let guardian_alerts := (results.filter (fun r => r.guardian.is_high_risk)).length
  let opportunity_alerts :=
    (results.filter (fun r => r.opportunity.has_business_intent)).length
  let auto_resolved := (results.filter draftIsNotNone).length
  match pyDiv auto_resolved total with
  | .error e => .error e
  | .ok q =>
    .ok { total_tickets := total, guardian_alerts := guardian_alerts,
          opportunity_alerts := opportunity_alerts, auto_resolved := auto_resolved,
          auto_resolved_rate := q * 100 }

/-- The three `len(...)/total*100` computations in the summary strip of
`generate_html_dashboard` (report_builder.py:94,99,104). -/
def dashboard_percentages (results : List TriageResult) :
    Except Unit (ℚ × ℚ × ℚ) :=
  let total : ℚ := results.length
  let auto : ℚ := (results.filter draftTruthy).length
  let gcount : ℚ := (results.filter (fun r => r.guardian.is_high_risk)).length
  let ocount : ℚ := (results.filter (fun r => r.opportunity.has_business_intent)).length
  match pyDiv auto total, pyDiv gcount total, pyDiv ocount total with
  | .ok a, .ok g, .ok o => .ok (a * 100, g * 100, o * 100)
  | _, _, _ => .error ()

/-! ## Sample data for concrete evaluations -/

instance {e a : Type} [DecidableEq e] [DecidableEq a] : DecidableEq (Except e a) := fun x y =>
  match x, y with
  | .ok u, .ok v => if h : u = v then .isTrue (by rw [h]) else .isFalse (by simp [h])
  | .error u, .error v => if h : u = v then .isTrue (by rw [h]) else .isFalse (by simp [h])
  | .ok _, .error _ => .isFalse (by simp)
  | .error _, .ok _ => .isFalse (by simp)

def sampleTicket : Ticket :=
  { ticket_id := "TCK-1001", customer_name := "Acme Corp",
    subject := "API integration failing", description := "Our API calls time out",
    channel := "email", mrr := 5000, timestamp := "2025-01-15 09:00:00",
    actual_priority := none }

def sampleAgents : List Agent :=
  [{ name := "Integrations & API Team", description := "Integration support",
     specialties := ["api"] },
   { name := "Data & Analytics Team", description := "Data pipelines",
     specialties := ["data"] },
   { name := "Compliance & Operations Team", description := "Compliance",
     specialties := ["ops"] }]

/-- Every service interaction raising. -/
def raisedOutcomes : TicketOutcomes :=
  { priorityCall := .raised, routeCall := .raised, guardianCall := .raised,
    opportunityCall := .raised, draftCall := .raised,
    guardianSend := .raised, opportunitySend := .raised }

/-- Priority classifier answers P3, everything else raises. -/
def sampleOutcomesP3 : TicketOutcomes :=
  { raisedOutcomes with priorityCall := .returned "P3" }

def envNone : Env := { guardian_email := none, opportunity_email := none }

/-- The result `process_ticket` computes for `sampleTicket` under
`sampleOutcomesP3`. -/
def sampleP3Result : TriageResult :=
  { ticket_id := "TCK-1001", customer_name := "Acme Corp",
    subject := "API integration failing", description := "Our API calls time out",
    channel := "email", mrr := 5000, timestamp := "2025-01-15 09:00:00",
    assigned_priority := "P3", assigned_agent := "Integrations & API Team",
    guardian := guardianExcFallback, guardian_email_sent := none,
    opportunity := opportunityExcFallback, opportunity_email_sent := none,
    draft_response := some none }

/-- Projections of the result record `process_ticket` succeeds with. -/
lemma process_ticket_ok_fields {t : Ticket} {agents : List Agent} {oc : TicketOutcomes}
    {env : Env} {r : TriageResult} (hok : process_ticket t agents oc env = .ok r) :
    r.assigned_priority = classify_priority t oc.priorityCall ∧
    r.assigned_agent = route_to_agent t agents oc.routeCall ∧
    r.guardian = analyze_churn_risk oc.guardianCall ∧
    r.opportunity = detect_business_intent oc.opportunityCall ∧
    r.draft_response =
      (if classify_priority t oc.priorityCall = "P2" ∨
          classify_priority t oc.priorityCall = "P3" then
        some (generate_draft_response t (route_to_agent t agents oc.routeCall) oc.draftCall)
      else none) := by
  simp only [process_ticket] at hok
  cases hgs : (if (analyze_churn_risk oc.guardianCall).is_high_risk then
      (send_guardian_alert env.guardian_email t (analyze_churn_risk oc.guardianCall)
        oc.guardianSend).map some
    else Except.ok none) with
  | error e =>
    rw [hgs] at hok
    simp at hok
  | ok gs =>
    rw [hgs] at hok
    cases hos : (if (detect_business_intent oc.opportunityCall).has_business_intent then
        (send_opportunity_alert env.opportunity_email t
          (detect_business_intent oc.opportunityCall) oc.opportunitySend).map some
      else Except.ok none) with
    | error e =>
      rw [hos] at hok
      simp at hok
    | ok os =>
      rw [hos] at hok
      obtain rfl := Except.ok.inj hok
      exact ⟨rfl, rfl, rfl, rfl, rfl⟩

/-! ## Claim theorems -/

/-- C2: for every possible raw classifier response to the churn-risk stage
(valid JSON with any `is_high_risk` value, JSON missing `risk_score`,
unparsable JSON, non-object JSON, or a raised exception), the result of
`analyze_churn_risk` has `is_high_risk = true` exactly when its own
`risk_score` (taken as 0 when absent) is at least 7 under Python comparison,
and the raw response's `is_high_risk` claim is never used. -/
theorem C2_guardian_risk_recomputed :
    (∀ call : JsonCall GObj,
      ((analyze_churn_risk call).is_high_risk = true ↔
        pyGEInt ((analyze_churn_risk call).risk_score.getD (.num 0)) 7 = .ok true)) ∧
    (∀ (o : GObj) (v w : Option JVal),
      analyze_churn_risk (.returned (.obj { o with is_high_risk := v })) =
        analyze_churn_risk (.returned (.obj { o with is_high_risk := w }))) := by
  constructor
  · intro call
    match call with
    | .raised =>
      simp only [analyze_churn_risk, guardianExcFallback, Option.getD, pyGEInt]
      norm_num
    | .returned (.parseError msg) =>
      simp only [analyze_churn_risk, guardianParseFallback, Option.getD, pyGEInt]
      norm_num
    | .returned .nonObject =>
      simp only [analyze_churn_risk, guardianExcFallback, Option.getD, pyGEInt]
      norm_num
    | .returned (.obj o) =>
      cases hg : pyGEInt (o.risk_score.getD (.num 0)) 7 with
      | error e =>
        simp only [analyze_churn_risk, hg]
        simp [guardianExcFallback, pyGEInt]
      | ok b =>
        simp only [analyze_churn_risk, hg]
        cases b <;> simp
  · intro o v w
    rfl

/-- C3: for every possible raw classifier response to the opportunity stage,
the result of `detect_business_intent` has `has_business_intent = true`
exactly when its own `confidence` (taken as 0 when absent) is at least 6,
overriding the raw boolean; on parse failure or exception the result has
confidence 0 and the flag false. -/
theorem C3_opportunity_intent_recomputed :
    (∀ call : JsonCall OObj,
      ((detect_business_intent call).has_business_intent = true ↔
        pyGEInt ((detect_business_intent call).confidence.getD (.num 0)) 6 = .ok true)) ∧
    (∀ (o : OObj) (v w : Option JVal),
      detect_business_intent (.returned (.obj { o with has_business_intent := v })) =
        detect_business_intent (.returned (.obj { o with has_business_intent := w }))) ∧
    (∀ msg, (detect_business_intent (.returned (.parseError msg))).confidence =
        some (.num 0) ∧
      (detect_business_intent (.returned (.parseError msg))).has_business_intent = false) ∧
    (detect_business_intent .raised).confidence = some (.num 0) ∧
    (detect_business_intent .raised).has_business_intent = false := by
  refine ⟨?_, fun o v w => rfl, fun msg => ⟨rfl, rfl⟩, rfl, rfl⟩
  intro call
  match call with
  | .raised =>
    simp only [detect_business_intent, opportunityExcFallback, Option.getD, pyGEInt]
    norm_num
  | .returned (.parseError msg) =>
    simp only [detect_business_intent, opportunityParseFallback, Option.getD, pyGEInt]
    norm_num
  | .returned .nonObject =>
    simp only [detect_business_intent, opportunityExcFallback, Option.getD, pyGEInt]
    norm_num
  | .returned (.obj o) =>
    cases hg : pyGEInt (o.confidence.getD (.num 0)) 6 with
    | error e =>
      simp only [detect_business_intent, hg]
      simp [opportunityExcFallback, pyGEInt]
    | ok b =>
      simp only [detect_business_intent, hg]
      cases b <;> simp

/-- C5: whenever the Guardian response is unparsable JSON but the service
call succeeded, `analyze_churn_risk` returns exactly the documented
fallback — risk_score 5, is_high_risk false, neutral sentiment, empty
evidence — with a reasoning string containing the parse-error description. -/
theorem C5_guardian_parse_fallback (msg : String) :
    analyze_churn_risk (.returned (.parseError msg)) =
      { risk_score := some (.num 5), is_high_risk := false,
        sentiment := some (.str "neutral"), evidence := some (.str ""),
        reasoning := some (.str ("JSON parse error: " ++ msg)) } ∧
    ∃ s pre post, (analyze_churn_risk (.returned (.parseError msg))).reasoning =
        some (.str s) ∧ s = pre ++ msg ++ post := by
  refine ⟨rfl, "JSON parse error: " ++ msg, "JSON parse error: ", "", rfl, ?_⟩
  simp

/-- C6: when the classifier service call raises, `classify_priority` returns
the ticket's `actual_priority` if present and `"P2"` otherwise,
`route_to_agent` returns the default team, and the Guardian and Opportunity
analyzers return their fully-zeroed safe results; all four stages stay
total. -/
theorem C6_exception_fallbacks :
    (∀ t : Ticket, classify_priority t .raised = t.actual_priority.getD "P2") ∧
    (∀ (t : Ticket) (agents : List Agent),
      route_to_agent t agents .raised = "Integrations & API Team") ∧
    analyze_churn_risk .raised =
      { risk_score := some (.num 0), is_high_risk := false,
        sentiment := some (.str "neutral"), evidence := some (.str ""),
        reasoning := some (.str "Analysis failed") } ∧
    detect_business_intent .raised =
      { has_business_intent := false, intent_type := some .null,
        confidence := some (.num 0), evidence := some (.str ""),
        reasoning := some (.str "Analysis failed") } :=
  ⟨fun _ => rfl, fun _ _ => rfl, rfl, rfl⟩

/-- C4: a JSON text `j` free of triple-backtick runs, wrapped in a markdown
code fence (tagged `json` or bare), cleans to the same text as unfenced `j`,
so the Guardian and Opportunity analyzers produce identical results for
fenced and unfenced responses, whatever `json.loads` does on that text. -/
theorem C4_fenced_parses_identically (loadsG : List Char → Parsed GObj)
    (loadsO : List Char → Parsed OObj) (j : List Char) (h : hasTicks j = false) :
    cleanResponse (fenceTagged j) = cleanResponse j ∧
    cleanResponse (fencePlain j) = cleanResponse j ∧
    analyze_churn_risk_text loadsG (fenceTagged j) = analyze_churn_risk_text loadsG j ∧
    analyze_churn_risk_text loadsG (fencePlain j) = analyze_churn_risk_text loadsG j ∧
    detect_business_intent_text loadsO (fenceTagged j) =
      detect_business_intent_text loadsO j ∧
    detect_business_intent_text loadsO (fencePlain j) =
      detect_business_intent_text loadsO j := by
  have e1 : cleanResponse (fenceTagged j) = cleanResponse j := by
    rw [cleanResponse_fenceTagged h, cleanResponse_unfenced h]
  have e2 : cleanResponse (fencePlain j) = cleanResponse j := by
    rw [cleanResponse_fencePlain h, cleanResponse_unfenced h]
  refine ⟨e1, e2, ?_, ?_, ?_, ?_⟩ <;>
    simp only [analyze_churn_risk_text, detect_business_intent_text, e1, e2]

/-- Witness for C4 at the concrete JSON text `42`. -/
theorem C4_fenced_parses_identically_witness :
    cleanResponse (fenceTagged ['4', '2']) = cleanResponse ['4', '2'] :=
  (C4_fenced_parses_identically (fun _ => .nonObject) (fun _ => .nonObject)
    ['4', '2'] (by decide)).1

/-- C1 as stated is false: when the classifier call raises and the ticket
carries `actual_priority = "URGENT"`, the triage result's
`assigned_priority` is the string `"URGENT"`, which is not one of P0-P3. -/
theorem C1_counterexample :
    (process_ticket { sampleTicket with actual_priority := some "URGENT" } []
        raisedOutcomes envNone).toOption.map (fun r => r.assigned_priority) =
      some "URGENT" ∧
    "URGENT" ∉ validPriorities := by
  exact ⟨rfl, by decide⟩

/-- C1 (amended): the `assigned_priority` of the triage result is one of
P0-P3 whenever the classifier call returns (an invalid token is replaced by
P2); when the call raises, it is the ticket's `actual_priority` verbatim —
whatever string that field contains — or P2 when the field is absent. -/
theorem C1_amended_assigned_priority (t : Ticket) (agents : List Agent)
    (oc : TicketOutcomes) (env : Env) (r : TriageResult)
    (hok : process_ticket t agents oc env = .ok r) :
    (∀ text, oc.priorityCall = .returned text →
      r.assigned_priority ∈ validPriorities) ∧
    (oc.priorityCall = .raised →
      r.assigned_priority = t.actual_priority.getD "P2") := by
  obtain ⟨hp, -, -, -, -⟩ := process_ticket_ok_fields hok
  constructor
  · intro text hcall
    rw [hp, hcall]
    simp only [classify_priority]
    by_cases hmem : pyStripS text ∈ validPriorities
    · rwa [if_pos hmem]
    · rw [if_neg hmem]
      decide
  · intro hcall
    rw [hp, hcall]
    rfl

/-- Witness for the amended C1: a valid token and a raised call on a ticket
without `actual_priority`. -/
theorem C1_amended_assigned_priority_witness :
    sampleP3Result.assigned_priority ∈ validPriorities :=
  (C1_amended_assigned_priority sampleTicket sampleAgents sampleOutcomesP3 envNone
    sampleP3Result rfl).1 "P3" rfl

/-- C7 as stated is false: when the classifier's string is not among the
configured team names, `route_to_agent` returns the hardcoded string
`"Integrations & API Team"` even when the configuration does not contain
that team at all — so the fallback is not "the first team of the
configuration". -/
theorem C7_counterexample :
    route_to_agent sampleTicket
        [{ name := "Data & Analytics Team", description := "", specialties := [] }]
        (.returned "Security Team") = "Integrations & API Team" ∧
    "Integrations & API Team" ∉
      (([{ name := "Data & Analytics Team", description := "", specialties := [] }] :
          List Agent).map (fun a => a.name)) := by
  exact ⟨by decide, by decide⟩

/-- C7 (amended): `route_to_agent` returns either a name drawn from the
configured set of team names (exact string match, after stripping) or the
hardcoded default string `"Integrations & API Team"` (the first/"general"
team of the shipped configuration, but not necessarily of an arbitrary
one). -/
theorem C7_amended_routing (t : Ticket) (agents : List Agent) (call : SvcCall) :
    (route_to_agent t agents call ∈ agents.map (fun a => a.name) ∨
      route_to_agent t agents call = "Integrations & API Team") ∧
    (∀ text, pyStripS text ∈ agents.map (fun a => a.name) →
      route_to_agent t agents (.returned text) = pyStripS text) := by
  constructor
  · match call with
    | .raised => exact Or.inr rfl
    | .returned text =>
      simp only [route_to_agent]
      by_cases hmem : pyStripS text ∈ agents.map (fun a => a.name)
      · rw [if_pos hmem]
        exact Or.inl hmem
      · rw [if_neg hmem]
        exact Or.inr rfl
  · intro text hmem
    simp only [route_to_agent]
    rw [if_pos hmem]

/-- Witness for the amended C7: a configured name round-trips through
stripping and routing. -/
theorem C7_amended_routing_witness :
    route_to_agent sampleTicket sampleAgents (.returned " Data & Analytics Team ") =
      pyStripS " Data & Analytics Team " :=
  (C7_amended_routing sampleTicket sampleAgents
    (.returned " Data & Analytics Team ")).2 " Data & Analytics Team " (by decide)

/-- C8: the triage result carries a draft response key only when
`assigned_priority` is P2 or P3; for other priorities the key is absent; and
for P2/P3 tickets whose generation call raises, the key holds null
(`some none`) rather than an error. -/
theorem C8_draft_only_for_p2_p3 (t : Ticket) (agents : List Agent)
    (oc : TicketOutcomes) (env : Env) (r : TriageResult)
    (hok : process_ticket t agents oc env = .ok r) :
    (r.draft_response ≠ none →
      r.assigned_priority = "P2" ∨ r.assigned_priority = "P3") ∧
    (¬(r.assigned_priority = "P2" ∨ r.assigned_priority = "P3") →
      r.draft_response = none) ∧
    ((r.assigned_priority = "P2" ∨ r.assigned_priority = "P3") →
      oc.draftCall = .raised → r.draft_response = some none) := by
  obtain ⟨hp, -, -, -, hd⟩ := process_ticket_ok_fields hok
  rw [hp, hd]
  by_cases hc : classify_priority t oc.priorityCall = "P2" ∨
      classify_priority t oc.priorityCall = "P3"
  · rw [if_pos hc]
    refine ⟨fun _ => hc, fun hn => absurd hc hn, fun _ hdr => ?_⟩
    rw [hdr]
    rfl
  · rw [if_neg hc]
    exact ⟨fun hne => absurd rfl hne, fun _ => rfl, fun hcontra _ => absurd hcontra hc⟩

/-- Witness for C8: a P3 ticket whose draft call raised carries a null
draft. -/
theorem C8_draft_only_for_p2_p3_witness :
    sampleP3Result.draft_response = some none :=
  (C8_draft_only_for_p2_p3 sampleTicket sampleAgents sampleOutcomesP3 envNone
    sampleP3Result rfl).2.2 (Or.inr rfl) rfl

/-- C9 as stated is false: the alert senders build the HTML body before the
`try` block, and the f-string's dict subscripts can raise.  A Guardian
result produced by the analyzer itself from the valid JSON object
`{"risk_score": 9}` is flagged high-risk, has no `sentiment` key, and makes
`send_guardian_alert` raise a `KeyError` past the boundary instead of
returning a boolean. -/
theorem C9_counterexample :
    (analyze_churn_risk (.returned (.obj
      { risk_score := some (.num 9), is_high_risk := none, sentiment := none,
        evidence := none, reasoning := none }))).is_high_risk = true ∧
    send_guardian_alert (some "kam@example.com") sampleTicket
      (analyze_churn_risk (.returned (.obj
        { risk_score := some (.num 9), is_high_risk := none, sentiment := none,
          evidence := none, reasoning := none })))
      (.status 202) = .error .keyError := by
  exact ⟨by decide, by decide⟩

/-- The analysis-result fields the Guardian alert's message template reads. -/
def guardianTemplateFieldsOk (g : GuardianResult) : Prop :=
  (∃ v, g.risk_score = some v) ∧ (∃ s, g.sentiment = some (.str s)) ∧
  (∃ v, g.evidence = some v) ∧ (∃ v, g.reasoning = some v)

/-- The analysis-result fields the Opportunity alert's template reads. -/
def opportunityTemplateFieldsOk (o : OpportunityResult) : Prop :=
  (∃ v, o.confidence = some v) ∧ (∃ v, o.evidence = some v) ∧
  (∃ v, o.reasoning = some v)

/-- C9 (amended): provided the analysis result contains the fields the
message template references (Guardian: risk_score, a string sentiment,
evidence, reasoning; Opportunity: confidence, evidence, reasoning), the
alert-dispatch operations never raise: they return False when the recipient
environment variable is unset or the send raises, and True exactly when the
delivery status code is 200 or 202. -/
theorem C9_amended_alert_boolean (t : Ticket) (g : GuardianResult)
    (o : OpportunityResult) (e : String) (s : SendOutcome) (c : ℤ)
    (hg : guardianTemplateFieldsOk g) (ho : opportunityTemplateFieldsOk o) :
    send_guardian_alert none t g s = .ok false ∧
    send_opportunity_alert none t o s = .ok false ∧
    send_guardian_alert (some e) t g .raised = .ok false ∧
    send_opportunity_alert (some e) t o .raised = .ok false ∧
    send_guardian_alert (some e) t g (.status c) = .ok (decide (c = 200 ∨ c = 202)) ∧
    send_opportunity_alert (some e) t o (.status c) =
      .ok (decide (c = 200 ∨ c = 202)) := by
  obtain ⟨⟨rv, hrv⟩, ⟨sv, hsv⟩, ⟨ev, hev⟩, ⟨uv, huv⟩⟩ := hg
  obtain ⟨⟨cv, hcv⟩, ⟨e2, he2⟩, ⟨r2, hr2⟩⟩ := ho
  refine ⟨rfl, rfl, ?_, ?_, ?_, ?_⟩ <;>
    simp [send_guardian_alert, send_opportunity_alert, hrv, hsv, hev, huv,
      hcv, he2, hr2]

/-- Witness for the amended C9: a successful 202 send on the parse-failure
fallback records. -/
theorem C9_amended_alert_boolean_witness :
    send_guardian_alert (some "kam@example.com") sampleTicket
      (guardianParseFallback "boom") (.status 202) =
      .ok (decide ((202 : ℤ) = 200 ∨ (202 : ℤ) = 202)) :=
  (C9_amended_alert_boolean sampleTicket (guardianParseFallback "boom")
    (opportunityParseFallback "boom") "kam@example.com" .raised 202
    ⟨⟨_, rfl⟩, ⟨_, rfl⟩, ⟨_, rfl⟩, ⟨_, rfl⟩⟩ ⟨⟨_, rfl⟩, ⟨_, rfl⟩, ⟨_, rfl⟩⟩).2.2.2.2.1

/-- C10: the metrics summary and the dashboard percentage computations
divide by `total = 0` and fail on an empty results list, and succeed on any
non-empty one. -/
theorem C10_empty_results_divide_by_zero :
    generate_metrics [] = .error () ∧
    dashboard_percentages [] = .error () ∧
    (∀ rs : List TriageResult, rs ≠ [] →
      (generate_metrics rs).toOption.isSome = true ∧
      (dashboard_percentages rs).toOption.isSome = true) := by
  refine ⟨rfl, rfl, ?_⟩
  intro rs hne
  have hlen : ((rs.length : ℚ)) ≠ 0 := by
    have h0 : rs.length ≠ 0 := fun h => hne (List.length_eq_zero.mp h)
    exact_mod_cast h0
  constructor
  · simp [generate_metrics, pyDiv, hlen, Except.toOption]
  · simp [dashboard_percentages, pyDiv, hlen, Except.toOption]

/-- Witness for C10: the one-element results list succeeds. -/
theorem C10_empty_results_divide_by_zero_witness :
    (generate_metrics [sampleP3Result]).toOption.isSome = true ∧
    (dashboard_percentages [sampleP3Result]).toOption.isSome = true :=
  C10_empty_results_divide_by_zero.2.2 [sampleP3Result] (by simp)

end Triage
